import Mathlib

/-!
Verification of the movie-script-generator agent's core algorithms against a
shallow Lean embedding of the source.

The main subjects are:
* the scene-duration rebalancer `adjustSceneDurations`
  (src/unnamed/part_001, lines 348-386);
* the `init` workflow materialization `handleInitStep`
  (src/unnamed/part_001, lines 57-123);
* the step dispatcher `processSteps` (src/unnamed/part_001, lines 14-50);
* the `handleScriptGeneration` variant of src/src/steps/stepHandlers.ts
  (second document in that file, lines 404-451), whose Content Generator call
  sits outside the surrounding try/catch.

Randomness (`Math.random()`) is modelled by an arbitrary stream of naturals
`rand : Nat → Nat`; the selected candidate index at loop iteration `k` is
`rand k % candidates.length`, which ranges over exactly the indices the source
can pick.  All theorems quantify over the stream, so they hold for every
possible sequence of random draws.
-/

namespace MovieScript

/-- Modelled from the spec: the `Scene` record (spec §3 "Scene").  The `types`
module that declares this interface is not part of the source snapshot (only
its importers are), so the attribute list is taken from the spec: `sceneNumber`,
`startTime`/`endTime`, `duration` (seconds), `shotType`, `cameraMovement`,
`cameraEquipment`, `lightingSetup`, `colorPalette`, `visualReferences`,
`characterActions`, `transitionType`, `specialNotes`. -/
structure Scene where
  sceneNumber : Int
  startTime : String
  endTime : String
  duration : Int
  shotType : String
  cameraMovement : String
  cameraEquipment : String
  lightingSetup : String
  colorPalette : String
  visualReferences : List String
  characterActions : String
  transitionType : String
  specialNotes : String
deriving Repr, DecidableEq

/-- Every field of a `Scene` except `duration`; used to state that the
rebalancer touches nothing but durations. -/
structure SceneFrame where
  sceneNumber : Int
  startTime : String
  endTime : String
  shotType : String
  cameraMovement : String
  cameraEquipment : String
  lightingSetup : String
  colorPalette : String
  visualReferences : List String
  characterActions : String
  transitionType : String
  specialNotes : String
deriving Repr, DecidableEq

/-- Projection of a `Scene` onto everything but its `duration`. -/
def Scene.frame (s : Scene) : SceneFrame :=
  ⟨s.sceneNumber, s.startTime, s.endTime, s.shotType, s.cameraMovement,
   s.cameraEquipment, s.lightingSetup, s.colorPalette, s.visualReferences,
   s.characterActions, s.transitionType, s.specialNotes⟩

/-- A scene with the given number and duration and empty textual fields;
used for concrete witnesses. -/
def mkScene (n d : Int) : Scene :=
  ⟨n, "", "", d, "", "", "", "", "", [], "", "", ""⟩

/-- Replaces the `j`-th element (0-based) of the sublist of elements satisfying
`p` with its image under `f`, leaving everything else untouched.  This is the
purely functional rendering of the source's in-place mutation
`candidates[randomIndex].duration = …`, where `candidates = scenes.filter(p)`:
mutating `candidates[j]` mutates the `j`-th `p`-satisfying element of `scenes`
(JavaScript `filter` copies references, not objects). -/
def updateNthMatching {α : Type} (p : α → Bool) (f : α → α) : List α → Nat → List α
  | [], _ => []
  | a :: rest, j =>
    if p a then
      if j = 0 then f a :: rest
      else a :: updateNthMatching p f rest (j - 1)
    else a :: updateNthMatching p f rest j

theorem map_updateNthMatching {α β : Type} (p : α → Bool) (f : α → α) (g : α → β)
    (hf : ∀ a, p a = true → g (f a) = g a) :
    ∀ (l : List α) (j : Nat), (updateNthMatching p f l j).map g = l.map g := by
  intro l
  induction l with
  | nil => intro j; rfl
  | cons a rest ih =>
      intro j
      by_cases hp : p a
      · rcases Nat.eq_zero_or_pos j with hj | hj
        · subst hj
          simp [updateNthMatching, hp, hf a hp]
        · simp [updateNthMatching, hp, Nat.pos_iff_ne_zero.mp hj, ih]
      · simp [updateNthMatching, hp, ih]

theorem length_updateNthMatching {α : Type} (p : α → Bool) (f : α → α)
    (l : List α) (j : Nat) : (updateNthMatching p f l j).length = l.length := by
  have := map_updateNthMatching p f (fun _ => ()) (by intro a _; rfl) l j
  calc (updateNthMatching p f l j).length
      = ((updateNthMatching p f l j).map (fun _ => ())).length := by
        rw [List.length_map]
    _ = (l.map (fun _ => ())).length := by rw [this]
    _ = l.length := by rw [List.length_map]

theorem filter_length_updateNthMatching_lt {α : Type} (p : α → Bool) (f : α → α)
    (hf : ∀ a, p a = true → p (f a) = false) :
    ∀ (l : List α) (j : Nat), j < (l.filter p).length →
      ((updateNthMatching p f l j).filter p).length < (l.filter p).length := by
  intro l
  induction l with
  | nil => intro j hj; simp at hj
  | cons a rest ih =>
      intro j hj
      by_cases hp : p a
      · rcases Nat.eq_zero_or_pos j with hj0 | hj0
        · subst hj0
          simp [updateNthMatching, hp, hf a hp]
        · have hne : j ≠ 0 := Nat.pos_iff_ne_zero.mp hj0
          have hj' : j - 1 < (rest.filter p).length := by
            have : j < (rest.filter p).length + 1 := by
              simpa [List.filter_cons, hp] using hj
            omega
          have := ih (j - 1) hj'
          simp [updateNthMatching, hp, hne, List.filter_cons]
          omega
      · have hj' : j < (rest.filter p).length := by
          simpa [List.filter_cons, hp] using hj
        have := ih j hj'
        simpa [updateNthMatching, hp, List.filter_cons] using this

theorem sum_map_updateNthMatching {α : Type} (p : α → Bool) (f : α → α)
    (g : α → Int) (c : Int) (hf : ∀ a, p a = true → g (f a) = g a + c) :
    ∀ (l : List α) (j : Nat), j < (l.filter p).length →
      ((updateNthMatching p f l j).map g).sum = (l.map g).sum + c := by
  intro l
  induction l with
  | nil => intro j hj; simp at hj
  | cons a rest ih =>
      intro j hj
      by_cases hp : p a
      · rcases Nat.eq_zero_or_pos j with hj0 | hj0
        · subst hj0
          simp [updateNthMatching, hp, hf a hp]
          ring
        · have hne : j ≠ 0 := Nat.pos_iff_ne_zero.mp hj0
          have hj' : j - 1 < (rest.filter p).length := by
            have : j < (rest.filter p).length + 1 := by
              simpa [List.filter_cons, hp] using hj
            omega
          simp [updateNthMatching, hp, hne, ih (j - 1) hj']
          ring
      · have hj' : j < (rest.filter p).length := by
          simpa [List.filter_cons, hp] using hj
        simp [updateNthMatching, hp, ih j hj']
        ring

theorem getD_updateNthMatching {α : Type} (p : α → Bool) (f : α → α) :
    ∀ (l : List α) (j i : Nat) (dflt : α),
      (updateNthMatching p f l j).getD i dflt = l.getD i dflt ∨
      ((updateNthMatching p f l j).getD i dflt = f (l.getD i dflt) ∧
        p (l.getD i dflt) = true) := by
  intro l
  induction l with
  | nil => intro j i dflt; left; rfl
  | cons a rest ih =>
      intro j i dflt
      by_cases hp : p a
      · rcases Nat.eq_zero_or_pos j with hj0 | hj0
        · subst hj0
          cases i with
          | zero =>
              right
              refine ⟨?_, hp⟩
              simp [updateNthMatching, hp]
          | succ i => left; simp [updateNthMatching, hp]
        · have hne : j ≠ 0 := Nat.pos_iff_ne_zero.mp hj0
          cases i with
          | zero => left; simp [updateNthMatching, hp, hne]
          | succ i =>
              have := ih (j - 1) i dflt
              simpa [updateNthMatching, hp, hne] using this
      · cases i with
        | zero => left; simp [updateNthMatching, hp]
        | succ i =>
            have := ih j i dflt
            simpa [updateNthMatching, hp] using this

/-- The candidate predicate of the grow pass: `scene.duration === 5`
(src/unnamed/part_001, line 358). -/
def isFive (s : Scene) : Bool := s.duration == 5

/-- The candidate predicate of the shrink pass: `scene.duration === 10`
(src/unnamed/part_001, line 373). -/
def isTen (s : Scene) : Bool := s.duration == 10

/-- The grow pass of `adjustSceneDurations` (src/unnamed/part_001, lines
357-368): while the running sum is below the target, pick a random scene of
duration 5 and set it to 10, adding 5 to the running sum; if no such scene
remains, warn and break.  The returned `Bool` records whether the
`console.warn` break was taken.  `k` counts loop iterations and indexes the
random stream. -/
def growLoop (rand : Nat → Nat) (target : Int) (k : Nat) (scenes : List Scene)
    (currentSum : Int) : List Scene × Int × Bool :=
  if currentSum < target then
    if h : (scenes.filter isFive).length = 0 then (scenes, currentSum, true)
    else
      growLoop rand target (k + 1)
        (updateNthMatching isFive (fun s => { s with duration := 10 }) scenes
          (rand k % (scenes.filter isFive).length))
        (currentSum + 5)
  else (scenes, currentSum, false)
termination_by (scenes.filter isFive).length
decreasing_by
  exact filter_length_updateNthMatching_lt isFive (fun s => { s with duration := 10 })
    (by intro a _; simp [isFive]) scenes _
    (Nat.mod_lt _ (Nat.pos_of_ne_zero h))

/-- The shrink pass of `adjustSceneDurations` (src/unnamed/part_001, lines
372-383): while the running sum exceeds `target + 5`, pick a random scene of
duration 10 and set it to 5, subtracting 5; if no such scene remains, warn and
break.  The returned `Bool` records whether the `console.warn` break was
taken. -/
def shrinkLoop (rand : Nat → Nat) (target : Int) (k : Nat) (scenes : List Scene)
    (currentSum : Int) : List Scene × Int × Bool :=
  if currentSum > target + 5 then
    if h : (scenes.filter isTen).length = 0 then (scenes, currentSum, true)
    else
      shrinkLoop rand target (k + 1)
        (updateNthMatching isTen (fun s => { s with duration := 5 }) scenes
          (rand k % (scenes.filter isTen).length))
        (currentSum - 5)
  else (scenes, currentSum, false)
termination_by (scenes.filter isTen).length
decreasing_by
  exact filter_length_updateNthMatching_lt isTen (fun s => { s with duration := 5 })
    (by intro a _; simp [isTen]) scenes _
    (Nat.mod_lt _ (Nat.pos_of_ne_zero h))

/-- The initial `reduce` of `adjustSceneDurations` (src/unnamed/part_001,
line 353): the summed duration of a scene list. -/
def sceneSum (scenes : List Scene) : Int :=
  scenes.foldl (fun acc s => acc + s.duration) 0

theorem foldl_add_duration (l : List Scene) :
    ∀ a : Int, l.foldl (fun acc s => acc + s.duration) a
      = a + (l.map Scene.duration).sum := by
  induction l with
  | nil => intro a; simp
  | cons s rest ih =>
      intro a
      simp [List.foldl_cons, ih]
      ring

theorem sceneSum_eq_sum_map (l : List Scene) :
    sceneSum l = (l.map Scene.duration).sum := by
  simpa [sceneSum] using foldl_add_duration l 0

/-- `adjustSceneDurations` (src/unnamed/part_001, lines 348-386), with the
source's `Math.random()` draws supplied as one stream per pass.  It computes
the initial sum by `reduce`, runs the grow pass, then runs the shrink pass on
the result, and returns the (functionally updated) scene list. -/
def adjustSceneDurations (randG randS : Nat → Nat) (scenes : List Scene)
    (targetDuration : Int) : List Scene :=
  let currentSum := sceneSum scenes
  let g := growLoop randG targetDuration 0 scenes currentSum
  let s := shrinkLoop randS targetDuration 0 g.1 g.2.1
  s.1

/-- Instrumented form of `adjustSceneDurations`: the same computation, also
returning which passes hit their `console.warn`-and-break branch (first flag:
grow pass, second flag: shrink pass). -/
def adjustRun (randG randS : Nat → Nat) (scenes : List Scene)
    (targetDuration : Int) : List Scene × Bool × Bool :=
  let currentSum := sceneSum scenes
  let g := growLoop randG targetDuration 0 scenes currentSum
  let s := shrinkLoop randS targetDuration 0 g.1 g.2.1
  (s.1, g.2.2, s.2.2)

theorem adjustRun_fst (randG randS : Nat → Nat) (scenes : List Scene)
    (targetDuration : Int) :
    (adjustRun randG randS scenes targetDuration).1
      = adjustSceneDurations randG randS scenes targetDuration := rfl

theorem isFive_duration {s : Scene} (h : isFive s = true) : s.duration = 5 := by
  simpa [isFive] using h

theorem isTen_duration {s : Scene} (h : isTen s = true) : s.duration = 10 := by
  simpa [isTen] using h

theorem growLoop_spec (rand : Nat → Nat) (target : Int) :
    ∀ (k : Nat) (scenes : List Scene) (c : Int), c = sceneSum scenes →
      (growLoop rand target k scenes c).2.1
          = sceneSum (growLoop rand target k scenes c).1
      ∧ (growLoop rand target k scenes c).1.map Scene.frame
          = scenes.map Scene.frame
      ∧ ((growLoop rand target k scenes c).2.2 = true →
          (growLoop rand target k scenes c).2.1 < target)
      ∧ ((growLoop rand target k scenes c).2.2 = false →
          target ≤ (growLoop rand target k scenes c).2.1) := by
  intro k scenes c
  induction k, scenes, c using growLoop.induct rand target with
  | case1 k scenes c hlt hnone =>
      intro hsum
      rw [growLoop.eq_def, if_pos hlt, dif_pos hnone]
      exact ⟨hsum, rfl, fun _ => hlt, fun h => by simp at h⟩
  | case2 k scenes c hlt hsome ih =>
      intro hsum
      have hj : rand k % (scenes.filter isFive).length
          < (scenes.filter isFive).length :=
        Nat.mod_lt _ (Nat.pos_of_ne_zero hsome)
      have hsum' : c + 5 = sceneSum (updateNthMatching isFive
          (fun s => { s with duration := 10 }) scenes
          (rand k % (scenes.filter isFive).length)) := by
        rw [sceneSum_eq_sum_map,
          sum_map_updateNthMatching isFive _ Scene.duration 5
            (by intro a ha; simp [isFive_duration ha]) scenes _ hj,
          ← sceneSum_eq_sum_map, hsum]
      have hframe : (updateNthMatching isFive
          (fun s => { s with duration := 10 }) scenes
          (rand k % (scenes.filter isFive).length)).map Scene.frame
          = scenes.map Scene.frame :=
        map_updateNthMatching isFive _ Scene.frame (by intro a _; rfl) scenes _
      have := ih hsum'
      rw [growLoop.eq_def, if_pos hlt, dif_neg hsome]
      exact ⟨this.1, by rw [this.2.1, hframe], this.2.2.1, this.2.2.2⟩
  | case3 k scenes c hge =>
      intro hsum
      rw [growLoop.eq_def, if_neg hge]
      exact ⟨hsum, rfl, fun h => by simp at h, fun _ => le_of_not_lt hge⟩

theorem shrinkLoop_spec (rand : Nat → Nat) (target : Int) :
    ∀ (k : Nat) (scenes : List Scene) (c : Int), c = sceneSum scenes →
      (shrinkLoop rand target k scenes c).2.1
          = sceneSum (shrinkLoop rand target k scenes c).1
      ∧ (shrinkLoop rand target k scenes c).1.map Scene.frame
          = scenes.map Scene.frame
      ∧ ((shrinkLoop rand target k scenes c).2.2 = true →
          target + 5 < (shrinkLoop rand target k scenes c).2.1)
      ∧ ((shrinkLoop rand target k scenes c).2.2 = false →
          (shrinkLoop rand target k scenes c).2.1 ≤ target + 5
          ∧ ((shrinkLoop rand target k scenes c).2.1 = c
              ∨ target < (shrinkLoop rand target k scenes c).2.1)) := by
  intro k scenes c
  induction k, scenes, c using shrinkLoop.induct rand target with
  | case1 k scenes c hgt hnone =>
      intro hsum
      rw [shrinkLoop.eq_def, if_pos hgt, dif_pos hnone]
      exact ⟨hsum, rfl, fun _ => hgt, fun h => by simp at h⟩
  | case2 k scenes c hgt hsome ih =>
      intro hsum
      have hj : rand k % (scenes.filter isTen).length
          < (scenes.filter isTen).length :=
        Nat.mod_lt _ (Nat.pos_of_ne_zero hsome)
      have hsum' : c - 5 = sceneSum (updateNthMatching isTen
          (fun s => { s with duration := 5 }) scenes
          (rand k % (scenes.filter isTen).length)) := by
        rw [sceneSum_eq_sum_map,
          sum_map_updateNthMatching isTen _ Scene.duration (-5)
            (by intro a ha; simp [isTen_duration ha]) scenes _ hj,
          ← sceneSum_eq_sum_map, hsum]
        ring
      have hframe : (updateNthMatching isTen
          (fun s => { s with duration := 5 }) scenes
          (rand k % (scenes.filter isTen).length)).map Scene.frame
          = scenes.map Scene.frame :=
        map_updateNthMatching isTen _ Scene.frame (by intro a _; rfl) scenes _
      have := ih hsum'
      rw [shrinkLoop.eq_def, if_pos hgt, dif_neg hsome]
      refine ⟨this.1, by rw [this.2.1, hframe], this.2.2.1, ?_⟩
      intro hfalse
      have h2 := this.2.2.2 hfalse
      refine ⟨h2.1, ?_⟩
      rcases h2.2 with h | h
      · right; rw [h]; omega
      · right; exact h
  | case3 k scenes c hle =>
      intro hsum
      rw [shrinkLoop.eq_def, if_neg hle]
      exact ⟨hsum, rfl, fun h => by simp at h,
        fun _ => ⟨le_of_not_lt hle, Or.inl rfl⟩⟩

theorem shrinkLoop_noop (rand : Nat → Nat) (target : Int) (k : Nat)
    (scenes : List Scene) (c : Int) (h : ¬ c > target + 5) :
    shrinkLoop rand target k scenes c = (scenes, c, false) := by
  rw [shrinkLoop.eq_def, if_neg h]

theorem growLoop_noop (rand : Nat → Nat) (target : Int) (k : Nat)
    (scenes : List Scene) (c : Int) (h : ¬ c < target) :
    growLoop rand target k scenes c = (scenes, c, false) := by
  rw [growLoop.eq_def, if_neg h]

theorem growLoop_getD (rand : Nat → Nat) (target : Int) :
    ∀ (k : Nat) (scenes : List Scene) (c : Int), ∀ (i : Nat) (dflt : Scene),
      (scenes.getD i dflt).duration ≠ 5 → (scenes.getD i dflt).duration ≠ 10 →
      (growLoop rand target k scenes c).1.getD i dflt = scenes.getD i dflt := by
  intro k scenes c
  induction k, scenes, c using growLoop.induct rand target with
  | case1 k scenes c hlt hnone =>
      intro i dflt _ _
      rw [growLoop.eq_def, if_pos hlt, dif_pos hnone]
  | case2 k scenes c hlt hsome ih =>
      intro i dflt h5 h10
      have hu : (updateNthMatching isFive (fun s => { s with duration := 10 })
          scenes (rand k % (scenes.filter isFive).length)).getD i dflt
          = scenes.getD i dflt := by
        rcases getD_updateNthMatching isFive (fun s => { s with duration := 10 })
            scenes (rand k % (scenes.filter isFive).length) i dflt with h | ⟨_, hmem⟩
        · exact h
        · exact absurd (isFive_duration hmem) h5
      rw [growLoop.eq_def, if_pos hlt, dif_neg hsome]
      rw [ih i dflt (by rw [hu]; exact h5) (by rw [hu]; exact h10), hu]
  | case3 k scenes c hge =>
      intro i dflt _ _
      rw [growLoop.eq_def, if_neg hge]

theorem shrinkLoop_getD (rand : Nat → Nat) (target : Int) :
    ∀ (k : Nat) (scenes : List Scene) (c : Int), ∀ (i : Nat) (dflt : Scene),
      (scenes.getD i dflt).duration ≠ 5 → (scenes.getD i dflt).duration ≠ 10 →
      (shrinkLoop rand target k scenes c).1.getD i dflt = scenes.getD i dflt := by
  intro k scenes c
  induction k, scenes, c using shrinkLoop.induct rand target with
  | case1 k scenes c hgt hnone =>
      intro i dflt _ _
      rw [shrinkLoop.eq_def, if_pos hgt, dif_pos hnone]
  | case2 k scenes c hgt hsome ih =>
      intro i dflt h5 h10
      have hu : (updateNthMatching isTen (fun s => { s with duration := 5 })
          scenes (rand k % (scenes.filter isTen).length)).getD i dflt
          = scenes.getD i dflt := by
        rcases getD_updateNthMatching isTen (fun s => { s with duration := 5 })
            scenes (rand k % (scenes.filter isTen).length) i dflt with h | ⟨_, hmem⟩
        · exact h
        · exact absurd (isTen_duration hmem) h10
      rw [shrinkLoop.eq_def, if_pos hgt, dif_neg hsome]
      rw [ih i dflt (by rw [hu]; exact h5) (by rw [hu]; exact h10), hu]
  | case3 k scenes c hle =>
      intro i dflt _ _
      rw [shrinkLoop.eq_def, if_neg hle]

theorem growLoop_getD_duration (rand : Nat → Nat) (target : Int) :
    ∀ (k : Nat) (scenes : List Scene) (c : Int), ∀ (i : Nat) (dflt : Scene),
      ((growLoop rand target k scenes c).1.getD i dflt).duration
          = (scenes.getD i dflt).duration
      ∨ ((growLoop rand target k scenes c).1.getD i dflt).duration = 10 := by
  intro k scenes c
  induction k, scenes, c using growLoop.induct rand target with
  | case1 k scenes c hlt hnone =>
      intro i dflt
      rw [growLoop.eq_def, if_pos hlt, dif_pos hnone]
      exact Or.inl rfl
  | case2 k scenes c hlt hsome ih =>
      intro i dflt
      have hu : (updateNthMatching isFive (fun s => { s with duration := 10 })
            scenes (rand k % (scenes.filter isFive).length)).getD i dflt
            = scenes.getD i dflt
          ∨ ((updateNthMatching isFive (fun s => { s with duration := 10 })
            scenes (rand k % (scenes.filter isFive).length)).getD i dflt).duration
            = 10 := by
        rcases getD_updateNthMatching isFive (fun s => { s with duration := 10 })
            scenes (rand k % (scenes.filter isFive).length) i dflt with h | ⟨h, _⟩
        · exact Or.inl h
        · right; rw [h]
      rw [growLoop.eq_def, if_pos hlt, dif_neg hsome]
      rcases ih i dflt with h | h
      · rcases hu with hu | hu
        · left; rw [h, hu]
        · right; rw [h, hu]
      · right; exact h
  | case3 k scenes c hge =>
      intro i dflt
      rw [growLoop.eq_def, if_neg hge]
      exact Or.inl rfl

theorem shrinkLoop_getD_duration (rand : Nat → Nat) (target : Int) :
    ∀ (k : Nat) (scenes : List Scene) (c : Int), ∀ (i : Nat) (dflt : Scene),
      ((shrinkLoop rand target k scenes c).1.getD i dflt).duration
          = (scenes.getD i dflt).duration
      ∨ ((shrinkLoop rand target k scenes c).1.getD i dflt).duration = 5 := by
  intro k scenes c
  induction k, scenes, c using shrinkLoop.induct rand target with
  | case1 k scenes c hgt hnone =>
      intro i dflt
      rw [shrinkLoop.eq_def, if_pos hgt, dif_pos hnone]
      exact Or.inl rfl
  | case2 k scenes c hgt hsome ih =>
      intro i dflt
      have hu : (updateNthMatching isTen (fun s => { s with duration := 5 })
            scenes (rand k % (scenes.filter isTen).length)).getD i dflt
            = scenes.getD i dflt
          ∨ ((updateNthMatching isTen (fun s => { s with duration := 5 })
            scenes (rand k % (scenes.filter isTen).length)).getD i dflt).duration
            = 5 := by
        rcases getD_updateNthMatching isTen (fun s => { s with duration := 5 })
            scenes (rand k % (scenes.filter isTen).length) i dflt with h | ⟨h, _⟩
        · exact Or.inl h
        · right; rw [h]
      rw [shrinkLoop.eq_def, if_pos hgt, dif_neg hsome]
      rcases ih i dflt with h | h
      · rcases hu with hu | hu
        · left; rw [h, hu]
        · right; rw [h, hu]
      · right; exact h
  | case3 k scenes c hle =>
      intro i dflt
      rw [shrinkLoop.eq_def, if_neg hle]
      exact Or.inl rfl

/-- C1: for scene lists whose durations lie in {5, 10} and any target, the
rebalanced sum is exactly `target` or strictly within `(target, target + 5]`
unless a pass exhausted its candidates (took its `console.warn` break, the
`Bool` flags of `adjustRun`): grow-pass exhaustion leaves the sum strictly
below `target`, shrink-pass exhaustion strictly above `target + 5` — in both
cases strictly outside the band. -/
theorem adjustRun_band (randG randS : Nat → Nat) (scenes : List Scene)
    (target : Int) (_hd : ∀ s ∈ scenes, s.duration = 5 ∨ s.duration = 10) :
    ((adjustRun randG randS scenes target).2.1 = false →
      (adjustRun randG randS scenes target).2.2 = false →
      (sceneSum (adjustRun randG randS scenes target).1 = target
        ∨ (target < sceneSum (adjustRun randG randS scenes target).1
            ∧ sceneSum (adjustRun randG randS scenes target).1 ≤ target + 5)))
    ∧ ((adjustRun randG randS scenes target).2.1 = true →
        sceneSum (adjustRun randG randS scenes target).1 < target)
    ∧ ((adjustRun randG randS scenes target).2.2 = true →
        target + 5 < sceneSum (adjustRun randG randS scenes target).1) := by
  have hg := growLoop_spec randG target 0 scenes (sceneSum scenes) rfl
  have hs := shrinkLoop_spec randS target 0
    (growLoop randG target 0 scenes (sceneSum scenes)).1
    (growLoop randG target 0 scenes (sceneSum scenes)).2.1 hg.1
  have hr1 : (adjustRun randG randS scenes target).1
      = (shrinkLoop randS target 0
          (growLoop randG target 0 scenes (sceneSum scenes)).1
          (growLoop randG target 0 scenes (sceneSum scenes)).2.1).1 := rfl
  have hr2 : (adjustRun randG randS scenes target).2.1
      = (growLoop randG target 0 scenes (sceneSum scenes)).2.2 := rfl
  have hr3 : (adjustRun randG randS scenes target).2.2
      = (shrinkLoop randS target 0
          (growLoop randG target 0 scenes (sceneSum scenes)).1
          (growLoop randG target 0 scenes (sceneSum scenes)).2.1).2.2 := rfl
  refine ⟨?_, ?_, ?_⟩
  · intro hgf hsf
    rw [hr2] at hgf
    rw [hr3] at hsf
    have h1 := hg.2.2.2 hgf
    have h2 := hs.2.2.2 hsf
    rw [hr1, ← hs.1]
    rcases h2.2 with h | h
    · rw [h] at h2 ⊢; omega
    · omega
  · intro hgt
    rw [hr2] at hgt
    have h1 := hg.2.2.1 hgt
    have hnoop := shrinkLoop_noop randS target 0
      (growLoop randG target 0 scenes (sceneSum scenes)).1
      (growLoop randG target 0 scenes (sceneSum scenes)).2.1 (by omega)
    rw [hr1, hnoop, ← hg.1]
    exact h1
  · intro hst
    rw [hr3] at hst
    have h2 := hs.2.2.1 hst
    rw [hr1, ← hs.1]
    exact h2

/-- Closed witness for `adjustRun_band`: two scenes of duration 5 and target
15; the grow pass converts one scene and stops at sum 15 = target, no pass
warns. -/
theorem adjustRun_band_witness :
    ((adjustRun (fun _ => 0) (fun _ => 0) [mkScene 1 5, mkScene 2 5] 15).2.1
        = false →
      (adjustRun (fun _ => 0) (fun _ => 0) [mkScene 1 5, mkScene 2 5] 15).2.2
        = false →
      (sceneSum (adjustRun (fun _ => 0) (fun _ => 0)
          [mkScene 1 5, mkScene 2 5] 15).1 = 15
        ∨ (15 < sceneSum (adjustRun (fun _ => 0) (fun _ => 0)
              [mkScene 1 5, mkScene 2 5] 15).1
            ∧ sceneSum (adjustRun (fun _ => 0) (fun _ => 0)
                [mkScene 1 5, mkScene 2 5] 15).1 ≤ 15 + 5)))
    ∧ ((adjustRun (fun _ => 0) (fun _ => 0) [mkScene 1 5, mkScene 2 5] 15).2.1
          = true →
        sceneSum (adjustRun (fun _ => 0) (fun _ => 0)
          [mkScene 1 5, mkScene 2 5] 15).1 < 15)
    ∧ ((adjustRun (fun _ => 0) (fun _ => 0) [mkScene 1 5, mkScene 2 5] 15).2.2
          = true →
        15 + 5 < sceneSum (adjustRun (fun _ => 0) (fun _ => 0)
          [mkScene 1 5, mkScene 2 5] 15).1) :=
  adjustRun_band (fun _ => 0) (fun _ => 0) [mkScene 1 5, mkScene 2 5] 15
    (by decide)

/-- C2: the rebalancer preserves the list's length, order and every field
other than `duration`: mapping away the `duration` field yields the same list
of `SceneFrame`s (in particular the `sceneNumber` sequence is unchanged).  The
source mutates scene objects in place and returns the same array, so object
identity is outside a value-level model; this theorem captures its observable
content. -/
theorem adjustSceneDurations_frame (randG randS : Nat → Nat)
    (scenes : List Scene) (target : Int) :
    (adjustSceneDurations randG randS scenes target).map Scene.frame
        = scenes.map Scene.frame
    ∧ (adjustSceneDurations randG randS scenes target).length = scenes.length
    ∧ (adjustSceneDurations randG randS scenes target).map
        (fun s => s.sceneNumber) = scenes.map (fun s => s.sceneNumber) := by
  have hg := growLoop_spec randG target 0 scenes (sceneSum scenes) rfl
  have hs := shrinkLoop_spec randS target 0
    (growLoop randG target 0 scenes (sceneSum scenes)).1
    (growLoop randG target 0 scenes (sceneSum scenes)).2.1 hg.1
  have hmap : (adjustSceneDurations randG randS scenes target).map Scene.frame
      = scenes.map Scene.frame := by
    show ((shrinkLoop randS target 0
        (growLoop randG target 0 scenes (sceneSum scenes)).1
        (growLoop randG target 0 scenes (sceneSum scenes)).2.1).1).map Scene.frame
      = scenes.map Scene.frame
    rw [hs.2.1, hg.2.1]
  refine ⟨hmap, ?_, ?_⟩
  · have := congrArg List.length hmap
    simpa using this
  · have := congrArg (List.map SceneFrame.sceneNumber) hmap
    simpa [Function.comp, Scene.frame] using this

/-- C4: the rebalancer terminates gracefully on unreachable targets.  Its Lean
rendering is total (accepted by well-founded recursion on the candidate count,
mirroring the source loops, which each strictly shrink their candidate pool);
moreover in the two exhaustion situations the claim names — no duration-5
scene while the sum is below target, or no duration-10 scene while the sum is
above target + 5 — it returns its input unchanged with exactly the
corresponding warn flag set, rather than raising or looping. -/
theorem adjustRun_exhaustion (randG randS : Nat → Nat) (scenes : List Scene)
    (target : Int)
    (h : ((scenes.filter isFive).length = 0 ∧ sceneSum scenes < target)
      ∨ ((scenes.filter isTen).length = 0 ∧ target + 5 < sceneSum scenes)) :
    adjustRun randG randS scenes target
      = (scenes, decide (sceneSum scenes < target),
          decide (target + 5 < sceneSum scenes)) := by
  rcases h with ⟨hf, hlt⟩ | ⟨hf, hgt⟩
  · have hg : growLoop randG target 0 scenes (sceneSum scenes)
        = (scenes, sceneSum scenes, true) := by
      rw [growLoop.eq_def, if_pos hlt, dif_pos hf]
    have hnoop := shrinkLoop_noop randS target 0 scenes (sceneSum scenes)
      (by omega)
    rw [show adjustRun randG randS scenes target
        = ((shrinkLoop randS target 0
            (growLoop randG target 0 scenes (sceneSum scenes)).1
            (growLoop randG target 0 scenes (sceneSum scenes)).2.1).1,
          (growLoop randG target 0 scenes (sceneSum scenes)).2.2,
          (shrinkLoop randS target 0
            (growLoop randG target 0 scenes (sceneSum scenes)).1
            (growLoop randG target 0 scenes (sceneSum scenes)).2.1).2.2)
      from rfl, hg]
    simp [hnoop, hlt, show ¬ target + 5 < sceneSum scenes by omega]
  · have hg : growLoop randG target 0 scenes (sceneSum scenes)
        = (scenes, sceneSum scenes, false) :=
      growLoop_noop randG target 0 scenes (sceneSum scenes) (by omega)
    have hshr : shrinkLoop randS target 0 scenes (sceneSum scenes)
        = (scenes, sceneSum scenes, true) := by
      rw [shrinkLoop.eq_def, if_pos hgt, dif_pos hf]
    rw [show adjustRun randG randS scenes target
        = ((shrinkLoop randS target 0
            (growLoop randG target 0 scenes (sceneSum scenes)).1
            (growLoop randG target 0 scenes (sceneSum scenes)).2.1).1,
          (growLoop randG target 0 scenes (sceneSum scenes)).2.2,
          (shrinkLoop randS target 0
            (growLoop randG target 0 scenes (sceneSum scenes)).1
            (growLoop randG target 0 scenes (sceneSum scenes)).2.1).2.2)
      from rfl, hg]
    simp [hshr, hgt, show ¬ sceneSum scenes < target by omega]

/-- Closed witness for `adjustRun_exhaustion`: a single duration-10 scene with
target 20 — the grow pass finds no duration-5 candidate while the sum 10 is
below 20, warns, and the whole rebalancer returns the list unchanged. -/
theorem adjustRun_exhaustion_witness :
    adjustRun (fun _ => 0) (fun _ => 0) [mkScene 1 10] 20
      = ([mkScene 1 10], decide (sceneSum [mkScene 1 10] < 20),
          decide ((20 : Int) + 5 < sceneSum [mkScene 1 10])) :=
  adjustRun_exhaustion (fun _ => 0) (fun _ => 0) [mkScene 1 10] 20
    (Or.inl (by constructor <;> decide))

/-- C5: when the scene durations already sum exactly to the target, the
rebalancer leaves the list untouched — neither pass's guard fires. -/
theorem adjustSceneDurations_exact (randG randS : Nat → Nat)
    (scenes : List Scene) (target : Int) (h : sceneSum scenes = target) :
    adjustSceneDurations randG randS scenes target = scenes := by
  have hg : growLoop randG target 0 scenes (sceneSum scenes)
      = (scenes, sceneSum scenes, false) :=
    growLoop_noop randG target 0 scenes (sceneSum scenes) (by omega)
  have hshr : shrinkLoop randS target 0 scenes (sceneSum scenes)
      = (scenes, sceneSum scenes, false) :=
    shrinkLoop_noop randS target 0 scenes (sceneSum scenes) (by omega)
  show (shrinkLoop randS target 0
      (growLoop randG target 0 scenes (sceneSum scenes)).1
      (growLoop randG target 0 scenes (sceneSum scenes)).2.1).1 = scenes
  rw [hg]
  simp only [hshr]

/-- Closed witness for `adjustSceneDurations_exact`: durations 5 and 10 with
target 15. -/
theorem adjustSceneDurations_exact_witness :
    adjustSceneDurations (fun _ => 0) (fun _ => 0)
      [mkScene 1 5, mkScene 2 10] 15 = [mkScene 1 5, mkScene 2 10] :=
  adjustSceneDurations_exact (fun _ => 0) (fun _ => 0)
    [mkScene 1 5, mkScene 2 10] 15 (by decide)

/-- C10: the rebalancer only ever writes the values 10 (grow pass) or 5
(shrink pass).  First conjunct: a scene whose duration is neither 5 nor 10 is
never selected by either pass and passes through entirely unchanged.  Second
conjunct: every output duration is the input duration at that position, or 10
(written by the grow pass), or 5 (written by the shrink pass).  Positions are
read with `List.getD`, so the statement needs no bounds side conditions. -/
theorem adjustSceneDurations_duration_domain (randG randS : Nat → Nat)
    (scenes : List Scene) (target : Int) (i : Nat) (dflt : Scene) :
    ((scenes.getD i dflt).duration ≠ 5 → (scenes.getD i dflt).duration ≠ 10 →
      (adjustSceneDurations randG randS scenes target).getD i dflt
        = scenes.getD i dflt)
    ∧ (((adjustSceneDurations randG randS scenes target).getD i dflt).duration
          = (scenes.getD i dflt).duration
        ∨ ((adjustSceneDurations randG randS scenes target).getD i
            dflt).duration = 10
        ∨ ((adjustSceneDurations randG randS scenes target).getD i
            dflt).duration = 5) := by
  have hshow : adjustSceneDurations randG randS scenes target
      = (shrinkLoop randS target 0
          (growLoop randG target 0 scenes (sceneSum scenes)).1
          (growLoop randG target 0 scenes (sceneSum scenes)).2.1).1 := rfl
  constructor
  · intro h5 h10
    have hgrow := growLoop_getD randG target 0 scenes (sceneSum scenes) i dflt
      h5 h10
    have hshrink := shrinkLoop_getD randS target 0
      (growLoop randG target 0 scenes (sceneSum scenes)).1
      (growLoop randG target 0 scenes (sceneSum scenes)).2.1 i dflt
      (by rw [hgrow]; exact h5) (by rw [hgrow]; exact h10)
    rw [hshow, hshrink, hgrow]
  · have hgrow := growLoop_getD_duration randG target 0 scenes
      (sceneSum scenes) i dflt
    have hshrink := shrinkLoop_getD_duration randS target 0
      (growLoop randG target 0 scenes (sceneSum scenes)).1
      (growLoop randG target 0 scenes (sceneSum scenes)).2.1 i dflt
    rw [hshow]
    rcases hshrink with h | h
    · rcases hgrow with h2 | h2
      · left; rw [h, h2]
      · right; left; rw [h, h2]
    · right; right; exact h

/-- Closed witness for `adjustSceneDurations_duration_domain`: a scene of
duration 7 (neither 5 nor 10) survives a grow pass towards target 30
untouched. -/
theorem adjustSceneDurations_duration_domain_witness :
    (adjustSceneDurations (fun _ => 0) (fun _ => 0)
        [mkScene 1 7, mkScene 2 5] 30).getD 0 (mkScene 0 0)
      = ([mkScene 1 7, mkScene 2 5] : List Scene).getD 0 (mkScene 0 0)
    ∧ (((adjustSceneDurations (fun _ => 0) (fun _ => 0)
          [mkScene 1 7, mkScene 2 5] 30).getD 0 (mkScene 0 0)).duration
        = (([mkScene 1 7, mkScene 2 5] : List Scene).getD 0
            (mkScene 0 0)).duration
      ∨ ((adjustSceneDurations (fun _ => 0) (fun _ => 0)
          [mkScene 1 7, mkScene 2 5] 30).getD 0 (mkScene 0 0)).duration = 10
      ∨ ((adjustSceneDurations (fun _ => 0) (fun _ => 0)
          [mkScene 1 7, mkScene 2 5] 30).getD 0 (mkScene 0 0)).duration = 5) :=
  ⟨(adjustSceneDurations_duration_domain (fun _ => 0) (fun _ => 0)
      [mkScene 1 7, mkScene 2 5] 30 0 (mkScene 0 0)).1 (by decide) (by decide),
    (adjustSceneDurations_duration_domain (fun _ => 0) (fun _ => 0)
      [mkScene 1 7, mkScene 2 5] 30 0 (mkScene 0 0)).2⟩

/-- The step status enum of `@nevermined-io/payments` as used by the
handlers. -/
inductive AgentExecutionStatus where
  | Pending
  | Completed
  | Failed
deriving Repr, DecidableEq

/-- Modelled from the spec: the `Setting` record (spec §3 "Setting"); the
`types` module declaring it is not in the snapshot. -/
structure Setting where
  id : String
  name : String
  description : String
  imagePrompt : String
  keyFeatures : List String
deriving Repr, DecidableEq

/-- Modelled from the spec: the `Character` record (spec §3 "Character"); the
`types` module declaring it is not in the snapshot. -/
structure Character where
  name : String
  ageRange : String
  perceivedGender : String
  heightBuild : String
  distinctiveFeatures : String
  wardrobeDetails : String
  movementStyle : String
  keyAccessories : String
  sceneSpecificChanges : String
  imagePrompt : String
deriving Repr, DecidableEq

/-- The structured `output_artifacts` payloads built by the handlers of
src/unnamed/part_001 (one constructor per literal object shape) and by the
`handleScriptGeneration` variant of src/src/steps/stepHandlers.ts
(`scriptPayloadB`, which carries no duration).  `parsedInput` stands for the
value `JSON.parse(step.input_artifacts)` forwarded verbatim by the init
handler; it is kept in its serialized form since the handler never inspects
it. -/
inductive Artifact where
  | parsedInput (raw : String)
  | scriptPayload (script lyrics : String) (tags : List String) (duration : Int)
  | scenesPayload (script : String) (scenes : List Scene) (lyrics : String)
      (tags : List String) (duration : Int)
  | settingsPayload (script : String) (scenes : List Scene)
      (settings : List Setting) (lyrics : String) (tags : List String)
      (duration : Int)
  | charactersPayload (script : String) (settings : List Setting)
      (scenes : List Scene) (characters : List Character) (duration : Int)
  | transformPayload (transformedScenes : List Scene)
      (settings : List Setting) (characters : List Character)
      (script : String) (scenes : List Scene)
  | scriptPayloadB (script lyrics : String) (tags : List String)
deriving Repr, DecidableEq

/-- The step record handled by the workers (spec §3 "Step"; the handlers treat
it as `any`).  `input_artifacts` is the serialized JSON string read from the
store; `output_artifacts` is the structured payload a handler writes back. -/
structure StepRecord where
  step_id : String
  task_id : String
  did : String
  name : String
  predecessor : String
  is_last : Bool
  step_status : AgentExecutionStatus
  input_query : String
  input_artifacts : String
  output : String
  output_artifacts : List Artifact
deriving Repr, DecidableEq

/-- A step-creation record as built by `handleInitStep`
(src/unnamed/part_001, lines 64-100). -/
structure NewStep where
  step_id : String
  task_id : String
  predecessor : String
  name : String
  is_last : Bool
deriving Repr, DecidableEq

/-- Observable calls a handler makes: local `logger.*` lines, remote
`logMessage` entries (which carry an optional task status), `createSteps`
batches, and `updateStep` writes. -/
inductive Effect where
  | logLocal (level msg : String)
  | logStore (taskId level msg : String) (taskStatus : Option AgentExecutionStatus)
  | createNewSteps (did taskId : String) (steps : List NewStep)
  | updateStep (did : String) (upd : StepRecord)
deriving Repr, DecidableEq

/-- Whether an effect mutates step state in the orchestration store (log
entries do not). -/
def Effect.isStoreMutation : Effect → Bool
  | .createNewSteps _ _ _ => true
  | .updateStep _ _ => true
  | _ => false

/-- Parsed shape of `generateScript` input artifacts:
`[{ title, tags, lyrics, idea, duration }]` (src/unnamed/part_001,
line 134). -/
structure ScriptGenInput where
  title : String
  tags : List String
  lyrics : String
  idea : String
  duration : Int
deriving Repr, DecidableEq

/-- Parsed shape of `extractScenes` input artifacts:
`[{ script, lyrics, tags, duration }]` (src/unnamed/part_001, line 185). -/
structure ScenesInput where
  script : String
  lyrics : String
  tags : List String
  duration : Int
deriving Repr, DecidableEq

/-- Parsed shape of `generateSettings` input artifacts:
`[{ script, scenes, lyrics, tags, duration }]` (src/unnamed/part_001,
line 234). -/
structure SettingsInput where
  script : String
  scenes : List Scene
  lyrics : String
  tags : List String
  duration : Int
deriving Repr, DecidableEq

/-- Parsed shape of `extractCharacters` input artifacts:
`[{ script, scenes, settings, lyrics, tags, duration }]`
(src/unnamed/part_001, line 264). -/
structure CharactersInput where
  script : String
  scenes : List Scene
  settings : List Setting
  lyrics : String
  tags : List String
  duration : Int
deriving Repr, DecidableEq

/-- Parsed shape of `transformScenes` input artifacts:
`[{ script, settings, scenes, characters, duration }]`
(src/unnamed/part_001, line 306). -/
structure TransformInput where
  script : String
  settings : List Setting
  scenes : List Scene
  characters : List Character
  duration : Int
deriving Repr, DecidableEq

/-- The handlers' external world: JSON parsing/destructuring of
`input_artifacts` (throwing modelled as `Except.error`), the black-box
Content Generator calls (each may throw), `JSON.stringify` renderings used in
log lines, `generateStepId` draws (indexed in call order), the status and
data of the orchestrator's `createSteps` response, and the `Math.random()`
streams the rebalancer consumes. -/
structure Env where
  parseInit : String → Except String String
  parseScriptGenInput : String → Except String ScriptGenInput
  parseScenesInput : String → Except String ScenesInput
  parseSettingsInput : String → Except String SettingsInput
  parseCharactersInput : String → Except String CharactersInput
  parseTransformInput : String → Except String TransformInput
  generateScript : ScriptGenInput → Except String String
  extractScenes : String → Int → Except String (List Scene)
  extractSettings : String → Except String (List Setting)
  extractCharacters : String → String → List String → Except String (List Character)
  transformScenes : List Scene → List Character → List Setting → String →
    Except String (List Scene)
  showScenes : List Scene → String
  showCharacters : List Character → String
  showBundle : List Scene → List Setting → List Character → String →
    List Scene → String
  generateStepId : Nat → String
  createStepsStatus : Int
  createStepsData : String
  randG : Nat → Nat
  randS : Nat → Nat

/-- The step batch built by `handleInitStep` (src/unnamed/part_001, lines
64-100): five records chained by `predecessor`, all on the init step's task,
with `is_last` set only on the final `transformScenes` record. -/
def initSteps (step : StepRecord) (scriptStepId sceneStepId settingsStepId
    characterStepId transformStepId : String) : List NewStep :=
  [ { step_id := scriptStepId, task_id := step.task_id,
      predecessor := step.step_id, name := "generateScript", is_last := false },
    { step_id := sceneStepId, task_id := step.task_id,
      predecessor := scriptStepId, name := "extractScenes", is_last := false },
    { step_id := settingsStepId, task_id := step.task_id,
      predecessor := sceneStepId, name := "generateSettings", is_last := false },
    { step_id := characterStepId, task_id := step.task_id,
      predecessor := settingsStepId, name := "extractCharacters", is_last := false },
    { step_id := transformStepId, task_id := step.task_id,
      predecessor := characterStepId, name := "transformScenes", is_last := true } ]

/-- The `init` handler (src/unnamed/part_001, lines 57-123): draw five fresh
step ids, submit the batch, log success or failure of the batch depending on
whether the response status is 201, and update the init step itself to
Completed with the original `input_query` as output, forwarding
`JSON.parse(step.input_artifacts)`.  The final `JSON.parse` is outside any
try/catch, so its failure aborts the handler (`Except.error`). -/
def handleInitStep (env : Env) (step : StepRecord) : Except String (List Effect) :=
  let steps := initSteps step (env.generateStepId 0) (env.generateStepId 1)
    (env.generateStepId 2) (env.generateStepId 3) (env.generateStepId 4)
  let logEff := Effect.logStore step.task_id
    (if env.createStepsStatus = 201 then "info" else "error")
    (if env.createStepsStatus = 201 then "Steps created successfully."
      else "Error creating steps: " ++ env.createStepsData) none
  match env.parseInit step.input_artifacts with
  | .error e => .error e
  | .ok parsed =>
      .ok [ Effect.createNewSteps step.did step.task_id steps, logEff,
        Effect.updateStep step.did { step with
          step_status := AgentExecutionStatus.Completed,
          output := step.input_query,
          output_artifacts := [Artifact.parsedInput parsed] } ]

/-- A list of step records forms a linear predecessor chain starting at
`prev`: each record's `predecessor` is the previous record's `step_id` (the
first one's is `prev`). -/
def linearChain (prev : String) : List NewStep → Prop
  | [] => True
  | s :: rest => s.predecessor = prev ∧ linearChain s.step_id rest

/-- C6: the init handler's batch is a single linear chain hanging off the
init step's own `step_id`; every record carries the init step's `task_id`;
`is_last` is true exactly on the fifth record, whose name is
`transformScenes`. -/
theorem initSteps_chain (step : StepRecord) (a b c d e : String) :
    linearChain step.step_id (initSteps step a b c d e)
    ∧ (initSteps step a b c d e).map NewStep.task_id
        = List.replicate 5 step.task_id
    ∧ (initSteps step a b c d e).map NewStep.is_last
        = [false, false, false, false, true]
    ∧ (initSteps step a b c d e).map NewStep.name
        = ["generateScript", "extractScenes", "generateSettings",
            "extractCharacters", "transformScenes"] := by
  refine ⟨?_, rfl, rfl, rfl⟩
  simp [initSteps, linearChain]

/-- C7: whatever status the `createSteps` call returns, `handleInitStep`
completes normally (given parseable init artifacts): the batch-result log is
at level `error` exactly when the status is not 201, and the init step is
still updated to Completed with the original `input_query` forwarded as
`output`. -/
theorem handleInitStep_completes (env : Env) (step : StepRecord) (v : String)
    (hparse : env.parseInit step.input_artifacts = .ok v) :
    ∃ t, handleInitStep env step = .ok t
      ∧ Effect.updateStep step.did { step with
          step_status := AgentExecutionStatus.Completed,
          output := step.input_query,
          output_artifacts := [Artifact.parsedInput v] } ∈ t
      ∧ Effect.logStore step.task_id
          (if env.createStepsStatus = 201 then "info" else "error")
          (if env.createStepsStatus = 201 then "Steps created successfully."
            else "Error creating steps: " ++ env.createStepsData) none ∈ t := by
  have h : handleInitStep env step
      = .ok [ Effect.createNewSteps step.did step.task_id
            (initSteps step (env.generateStepId 0) (env.generateStepId 1)
              (env.generateStepId 2) (env.generateStepId 3)
              (env.generateStepId 4)),
          Effect.logStore step.task_id
            (if env.createStepsStatus = 201 then "info" else "error")
            (if env.createStepsStatus = 201 then "Steps created successfully."
              else "Error creating steps: " ++ env.createStepsData) none,
          Effect.updateStep step.did { step with
            step_status := AgentExecutionStatus.Completed,
            output := step.input_query,
            output_artifacts := [Artifact.parsedInput v] } ] := by
    unfold handleInitStep
    rw [hparse]
  refine ⟨_, h, ?_, ?_⟩ <;> simp

/-- Failure branch shared by the `generateScript` handler's catch block
(src/unnamed/part_001, lines 165-173). -/
def scriptGenFailure (step : StepRecord) (e : String) : List Effect :=
  [ Effect.logLocal "error" ("Error during script generation: " ++ e),
    Effect.updateStep step.did { step with
      step_status := AgentExecutionStatus.Failed,
      output := "Failed to generate script." } ]

/-- The `generateScript` handler (src/unnamed/part_001, lines 128-174): the
try block covers both artifact destructuring and the generator call; any
failure is converted into a Failed update. -/
def handleScriptGeneration (env : Env) (step : StepRecord) : List Effect :=
  match env.parseScriptGenInput step.input_artifacts with
  | .error e => scriptGenFailure step e
  | .ok i =>
    match env.generateScript i with
    | .error e => scriptGenFailure step e
    | .ok script =>
        [ Effect.logLocal "info" ("Generated script: " ++ script),
          Effect.updateStep step.did { step with
            step_status := AgentExecutionStatus.Completed,
            output := "Script generation completed.",
            output_artifacts :=
              [Artifact.scriptPayload script i.lyrics i.tags i.duration] },
          Effect.logStore step.task_id "info" "Script generation completed."
            none ]

/-- Failure branch of the `extractScenes` handler's catch block
(src/unnamed/part_001, lines 204-218); note the source logs the success
message at level info with a Failed task status. -/
def scenesExtractionFailure (step : StepRecord) (e : String) : List Effect :=
  [ Effect.logLocal "error" ("Error during scenes extraction: " ++ e),
    Effect.updateStep step.did { step with
      step_status := AgentExecutionStatus.Failed,
      output := "Failed to extract scenes." },
    Effect.logStore step.task_id "info"
      "Scenes extraction completed successfully."
      (some AgentExecutionStatus.Failed) ]

/-- The `extractScenes` handler (src/unnamed/part_001, lines 179-219). -/
def handleScenesExtraction (env : Env) (step : StepRecord) : List Effect :=
  match env.parseScenesInput step.input_artifacts with
  | .error e => scenesExtractionFailure step e
  | .ok i =>
    match env.extractScenes i.script i.duration with
    | .error e => scenesExtractionFailure step e
    | .ok scenes =>
        [ Effect.logLocal "info" ("Extracted scenes: " ++ env.showScenes scenes),
          Effect.updateStep step.did { step with
            step_status := AgentExecutionStatus.Completed,
            output := "Scenes extraction completed.",
            output_artifacts :=
              [Artifact.scenesPayload i.script scenes i.lyrics i.tags
                i.duration] },
          Effect.logStore step.task_id "info"
            "Scenes extraction completed successfully." none ]

/-- Failure branch of the `generateSettings` handler's catch block
(src/unnamed/part_001, lines 245-252). -/
def settingsGenerationFailure (step : StepRecord) (e : String) : List Effect :=
  [ Effect.logLocal "error" ("Error during settings generation: " ++ e),
    Effect.updateStep step.did { step with
      step_status := AgentExecutionStatus.Failed,
      output := "Failed to generate settings." } ]

/-- The `generateSettings` handler (src/unnamed/part_001, lines 228-253). -/
def handleSettingsGeneration (env : Env) (step : StepRecord) : List Effect :=
  match env.parseSettingsInput step.input_artifacts with
  | .error e => settingsGenerationFailure step e
  | .ok i =>
    match env.extractSettings i.script with
    | .error e => settingsGenerationFailure step e
    | .ok settings =>
        [ Effect.updateStep step.did { step with
            step_status := AgentExecutionStatus.Completed,
            output := "Settings generation completed.",
            output_artifacts :=
              [Artifact.settingsPayload i.script i.scenes settings i.lyrics
                i.tags i.duration] } ]

/-- Failure branch of the `extractCharacters` handler's catch block
(src/unnamed/part_001, lines 287-294). -/
def charactersExtractionFailure (step : StepRecord) (e : String) : List Effect :=
  [ Effect.logLocal "error" ("Error during characters extraction: " ++ e),
    Effect.updateStep step.did { step with
      step_status := AgentExecutionStatus.Failed,
      output := "Failed to extract characters." } ]

/-- The `extractCharacters` handler (src/unnamed/part_001, lines 258-295);
the generator is called on `step.input_query` plus the forwarded lyrics and
tags. -/
def handleCharactersExtraction (env : Env) (step : StepRecord) : List Effect :=
  match env.parseCharactersInput step.input_artifacts with
  | .error e => charactersExtractionFailure step e
  | .ok i =>
    match env.extractCharacters step.input_query i.lyrics i.tags with
    | .error e => charactersExtractionFailure step e
    | .ok characters =>
        [ Effect.logLocal "info"
            ("Extracted characters: " ++ env.showCharacters characters),
          Effect.updateStep step.did { step with
            step_status := AgentExecutionStatus.Completed,
            output := "Characters extraction completed.",
            output_artifacts :=
              [Artifact.charactersPayload i.script i.settings i.scenes
                characters i.duration] },
          Effect.logStore step.task_id "info"
            "Characters extraction completed successfully." none ]

/-- Failure branch of the `transformScenes` handler's catch block
(src/unnamed/part_001, lines 338-345). -/
def scenesTransformationFailure (step : StepRecord) (e : String) : List Effect :=
  [ Effect.logLocal "error" ("Error during scenes transformation: " ++ e),
    Effect.updateStep step.did { step with
      step_status := AgentExecutionStatus.Failed,
      output := "Failed to transform scenes." } ]

/-- The `transformScenes` handler (src/unnamed/part_001, lines 300-346): it
calls the generator, then rebalances the returned prompts with
`adjustSceneDurations` against the forwarded target duration, and completes
the step with `output := step.input_query`. -/
def handleScenesTransformation (env : Env) (step : StepRecord) : List Effect :=
  match env.parseTransformInput step.input_artifacts with
  | .error e => scenesTransformationFailure step e
  | .ok i =>
    match env.transformScenes i.scenes i.characters i.settings i.script with
    | .error e => scenesTransformationFailure step e
    | .ok prompts =>
        let transformedScenes :=
          adjustSceneDurations env.randG env.randS prompts i.duration
        [ Effect.logLocal "info" ("prompts: " ++ env.showScenes prompts),
          Effect.logLocal "info" "Sending data:",
          Effect.logLocal "info"
            (env.showBundle prompts i.settings i.characters i.script i.scenes),
          Effect.updateStep step.did { step with
            step_status := AgentExecutionStatus.Completed,
            output := step.input_query,
            output_artifacts :=
              [Artifact.transformPayload transformedScenes i.settings
                i.characters i.script i.scenes] },
          Effect.logStore step.task_id "info"
            "Scenes transformation completed successfully."
            (some AgentExecutionStatus.Completed) ]

/-- The dispatcher body of `processSteps` (src/unnamed/part_001, lines
17-49) from the point where the step record has been fetched: log the
"Processing step" line, then switch on `step.name`; an unrecognized name only
gets a local warning.  The `Except` layer carries the only uncaught throw
(the init handler's trailing `JSON.parse`). -/
def processStep (env : Env) (step : StepRecord) : Except String (List Effect) :=
  let pre := Effect.logStore step.task_id "info"
    ("Processing step: " ++ step.name) none
  if step.name = "init" then
    match handleInitStep env step with
    | .error e => .error e
    | .ok t => .ok (pre :: t)
  else if step.name = "generateScript" then
    .ok (pre :: handleScriptGeneration env step)
  else if step.name = "extractScenes" then
    .ok (pre :: handleScenesExtraction env step)
  else if step.name = "generateSettings" then
    .ok (pre :: handleSettingsGeneration env step)
  else if step.name = "extractCharacters" then
    .ok (pre :: handleCharactersExtraction env step)
  else if step.name = "transformScenes" then
    .ok (pre :: handleScenesTransformation env step)
  else
    .ok [pre, Effect.logLocal "warn"
      ("Unrecognized step name: " ++ step.name ++ ". Skipping...")]

/-- The step names the dispatcher of src/unnamed/part_001 recognizes. -/
def recognizedStepNames : List String :=
  ["init", "generateScript", "extractScenes", "generateSettings",
    "extractCharacters", "transformScenes"]

/-- C9: for a fetched step whose name is outside the recognized set, the
dispatcher returns normally with exactly the "Processing step" log entry and
a local warning — no effect in the trace mutates the store (no `updateStep`,
no `createSteps`), and no error is thrown, whatever the environment does. -/
theorem processStep_unknown_name (env : Env) (step : StepRecord)
    (h : step.name ∉ recognizedStepNames) :
    processStep env step
      = .ok [ Effect.logStore step.task_id "info"
            ("Processing step: " ++ step.name) none,
          Effect.logLocal "warn"
            ("Unrecognized step name: " ++ step.name ++ ". Skipping...") ]
    ∧ ∀ t, processStep env step = .ok t →
        t.all (fun e => !e.isStoreMutation) = true := by
  simp only [recognizedStepNames, List.mem_cons, List.mem_singleton] at h
  push_neg at h
  obtain ⟨h1, h2, h3, h4, h5, h6⟩ := h
  have heq : processStep env step
      = .ok [ Effect.logStore step.task_id "info"
            ("Processing step: " ++ step.name) none,
          Effect.logLocal "warn"
            ("Unrecognized step name: " ++ step.name ++ ". Skipping...") ] := by
    simp [processStep, h1, h2, h3, h4, h5, h6]
  refine ⟨heq, ?_⟩
  intro t ht
  rw [heq] at ht
  cases ht
  rfl

/-- A concrete pending step used by the witnesses. -/
def sampleStep : StepRecord :=
  { step_id := "step-0", task_id := "task-1", did := "did-1",
    name := "generateScript", predecessor := "", is_last := false,
    step_status := AgentExecutionStatus.Pending,
    input_query := "a neon city music video",
    input_artifacts := "[]", output := "", output_artifacts := [] }

/-- A concrete environment used by the witnesses: parsing of init artifacts
succeeds with the raw string, every other parse and every generator call
fails, and the orchestrator answers `createSteps` with status 500. -/
def sampleEnv : Env :=
  { parseInit := fun s => .ok s,
    parseScriptGenInput := fun _ => .error "malformed artifacts",
    parseScenesInput := fun _ => .error "malformed artifacts",
    parseSettingsInput := fun _ => .error "malformed artifacts",
    parseCharactersInput := fun _ => .error "malformed artifacts",
    parseTransformInput := fun _ => .error "malformed artifacts",
    generateScript := fun _ => .error "generator unavailable",
    extractScenes := fun _ _ => .error "generator unavailable",
    extractSettings := fun _ => .error "generator unavailable",
    extractCharacters := fun _ _ _ => .error "generator unavailable",
    transformScenes := fun _ _ _ _ => .error "generator unavailable",
    showScenes := fun _ => "[]",
    showCharacters := fun _ => "[]",
    showBundle := fun _ _ _ _ _ => "[]",
    generateStepId := fun n => "fresh-" ++ toString n,
    createStepsStatus := 500,
    createStepsData := "upstream rejected",
    randG := fun _ => 0,
    randS := fun _ => 0 }

/-- A fetched step whose name no dispatcher case matches
(`transformCharacters` belongs to another workflow variant). -/
def unknownStep : StepRecord := { sampleStep with name := "transformCharacters" }

/-- Closed witness for `processStep_unknown_name` at the concrete unknown
step and environment. -/
theorem processStep_unknown_name_witness :
    processStep sampleEnv unknownStep
      = .ok [ Effect.logStore unknownStep.task_id "info"
            ("Processing step: " ++ unknownStep.name) none,
          Effect.logLocal "warn"
            ("Unrecognized step name: " ++ unknownStep.name ++ ". Skipping...") ]
    ∧ ∀ t, processStep sampleEnv unknownStep = .ok t →
        t.all (fun e => !e.isStoreMutation) = true :=
  processStep_unknown_name sampleEnv unknownStep (by decide)

/-- A concrete init step for the `handleInitStep` witness. -/
def initStepSample : StepRecord := { sampleStep with name := "init" }

/-- Closed witness for `handleInitStep_completes`: with a 500 `createSteps`
response the init step is still updated to Completed and the batch log entry
is at level error. -/
theorem handleInitStep_completes_witness :
    ∃ t, handleInitStep sampleEnv initStepSample = .ok t
      ∧ Effect.updateStep initStepSample.did { initStepSample with
          step_status := AgentExecutionStatus.Completed,
          output := initStepSample.input_query,
          output_artifacts := [Artifact.parsedInput "[]"] } ∈ t
      ∧ Effect.logStore initStepSample.task_id
          (if sampleEnv.createStepsStatus = 201 then "info" else "error")
          (if sampleEnv.createStepsStatus = 201 then "Steps created successfully."
            else "Error creating steps: " ++ sampleEnv.createStepsData) none
          ∈ t :=
  handleInitStep_completes sampleEnv initStepSample "[]" rfl

namespace HandlersB

/-- The `handleScriptGeneration` variant of src/src/steps/stepHandlers.ts
(second document in that file, lines 404-451).  There, the try/catch covers
only `JSON.parse(step.input_artifacts || "[]")` and the required-field
validation (both folded into the `parse` argument, an error standing for the
thrown exception); the call `extractor.generateScript(artifacts[0])` on line
430 happens after the catch block has been left, so a Content Generator throw
leaves the handler as an uncaught exception (`Except.error`) with no
`updateStep` performed at all. -/
def handleScriptGeneration (parse : Except String ScriptGenInput)
    (gen : ScriptGenInput → Except String String) (step : StepRecord) :
    Except String (List Effect) :=
  match parse with
  | .error e =>
      .ok [ Effect.logLocal "error" ("Error during script generation: " ++ e),
        Effect.updateStep step.did { step with
          step_status := AgentExecutionStatus.Failed,
          output := "Failed to generate script." } ]
  | .ok a =>
    match gen a with
    | .error e => .error e
    | .ok script =>
        .ok [ Effect.logLocal "info" ("Generated script: " ++ script),
          Effect.updateStep step.did { step with
            step_status := AgentExecutionStatus.Completed,
            output := "Script generation completed.",
            output_artifacts :=
              [Artifact.scriptPayloadB script a.lyrics a.tags] },
          Effect.logStore step.task_id "info" "Script generation completed."
            none ]

end HandlersB

/-- Valid parsed song metadata for the C3 failing input. -/
def sampleMeta : ScriptGenInput :=
  { title := "Neon Nights", tags := ["synthwave"], lyrics := "la la la",
    idea := "a neon city music video", duration := 60 }

/-- C3 (failing-input evaluation): in the stepHandlers.ts variant, a
`generateScript` step with valid artifacts whose Content Generator call
throws makes `handleScriptGeneration` end in an uncaught exception — the
error propagates out of the handler and no `Failed` update (indeed no effect
at all) is produced, contradicting the containment the claim states.  The
part_001 variant (`MovieScript.handleScriptGeneration`) does contain the same
failure inside its catch block. -/
theorem handleScriptGenerationB_propagates :
    HandlersB.handleScriptGeneration (.ok sampleMeta)
      (fun _ => .error "content generator failure") sampleStep
      = .error "content generator failure" := rfl

end MovieScript
